import Mathlib

/-!
# Verification of the fraud-detector scoring and training services

Shallow embedding of the core of the `aboerstra/fraud-detector` repository:

* `FeatureService` (ml-service/app/services/feature_service.py): raw-data
  normalization into the fixed 15-feature vector.
* `ModelService` (ml-service/app/services/model_service.py): model registry,
  version resolution, fallback mock scorer, confidence and risk tier.
* `TrainingService` (ml-training-service/app/services/training_service.py):
  training-job state machine, hyperparameter presets, deploy operation.

Python floats are modelled as exact rationals (`ℚ`); Python dict/JSON-like
raw inputs are modelled by the nested `Raw` type whose leaves are numbers.
String leaves (date-of-birth parsing and numeric-string coercion) are not
modelled; all properties considered here quantify over numeric-leaf inputs
only.  Fallible Python code (a raised exception) is modelled by `Except`.
-/

namespace FraudDetector

/-- A raw input mapping: a nested JSON-like object whose leaves are numbers
(Python floats/ints, modelled as `ℚ`).  Mirrors the `Dict[str, Any]` raw
feature payload accepted by `FeatureService.preprocess_features`. -/
inductive Raw where
  | num (q : ℚ)
  | obj (fields : List (String × Raw))

/-- Association-list lookup on an object's fields (Python `key in current` /
`current[key]`; dict keys are unique, so first match is the binding). -/
def lookup_field : List (String × Raw) → String → Option Raw
  | [], _ => none
  | (k, v) :: rest, key => if k = key then some v else lookup_field rest key

/-- `FeatureService._get_nested_value`: walk a path of keys through nested
dicts; `None` as soon as a key is absent or the current value is not a dict. -/
def get_nested_value : Raw → List String → Option Raw
  | v, [] => some v
  | Raw.obj fields, key :: rest =>
      match lookup_field fields key with
      | some v => get_nested_value v rest
      | none => none
  | Raw.num _, _ :: _ => none

/-- Python `float(value)` on a raw leaf: succeeds on a number, raises
(`TypeError`) on a dict. -/
def py_float : Raw → Option ℚ
  | Raw.num q => some q
  | Raw.obj _ => none

/-- Python `int(value)` on a raw leaf: truncation toward zero on a number,
raises on a dict. -/
def py_int : Raw → Option ℤ
  | Raw.num q => some (if q < 0 then ⌈q⌉ else ⌊q⌋)
  | Raw.obj _ => none

/-- The shared loop body of every `_extract_*` helper: try the candidate
paths in order, return `float(value)` of the first one that resolves
(raising, i.e. `.error`, if the resolved value is not coercible), or the
documented default when no path resolves. -/
def first_resolved (data : Raw) : List (List String) → Option Raw
  | [] => none
  | p :: rest =>
      match get_nested_value data p with
      | some v => some v
      | none => first_resolved data rest

def extract_with_paths (data : Raw) (paths : List (List String)) (default : ℚ) :
    Except Unit ℚ :=
  match first_resolved data paths with
  | some v =>
      match py_float v with
      | some q => Except.ok q
      | none => Except.error ()
  | none => Except.ok default

def credit_score_paths : List (List String) :=
  [["credit_score"], ["applicant", "credit_score"],
   ["personal_info", "credit_score"], ["financial_info", "credit_score"]]

/-- `FeatureService._extract_credit_score` (default 650.0). -/
def extract_credit_score (data : Raw) : Except Unit ℚ :=
  extract_with_paths data credit_score_paths 650

def employment_months_paths : List (List String) :=
  [["employment_months"], ["applicant", "employment_months"],
   ["financial_info", "employment_months"], ["personal_info", "employment_months"]]

/-- `FeatureService._extract_employment_months` (default 24.0). -/
def extract_employment_months (data : Raw) : Except Unit ℚ :=
  extract_with_paths data employment_months_paths 24

def annual_income_paths : List (List String) :=
  [["annual_income"], ["applicant", "annual_income"],
   ["financial_info", "annual_income"], ["personal_info", "annual_income"]]

/-- `FeatureService._extract_annual_income` (default 50000.0). -/
def extract_annual_income (data : Raw) : Except Unit ℚ :=
  extract_with_paths data annual_income_paths 50000

def credit_history_years_paths : List (List String) :=
  [["credit_history_years"], ["applicant", "credit_history_years"],
   ["financial_info", "credit_history_years"]]

/-- `FeatureService._extract_credit_history_years` (default 7.0). -/
def extract_credit_history_years (data : Raw) : Except Unit ℚ :=
  extract_with_paths data credit_history_years_paths 7

def delinquencies_paths : List (List String) :=
  [["delinquencies_24m"], ["applicant", "delinquencies_24m"],
   ["financial_info", "delinquencies_24m"], ["credit_info", "delinquencies_24m"]]

/-- `FeatureService._extract_delinquencies` (default 1.0). -/
def extract_delinquencies (data : Raw) : Except Unit ℚ :=
  extract_with_paths data delinquencies_paths 1

def loan_amount_paths : List (List String) :=
  [["loan_amount"], ["loan", "amount"], ["loan_info", "amount"]]

/-- `FeatureService._extract_loan_amount` (default 25000.0). -/
def extract_loan_amount (data : Raw) : Except Unit ℚ :=
  extract_with_paths data loan_amount_paths 25000

def vehicle_value_paths : List (List String) :=
  [["vehicle_value"], ["vehicle", "value"], ["vehicle", "estimated_value"],
   ["vehicle_info", "value"], ["vehicle_info", "estimated_value"]]

/-- `FeatureService._extract_vehicle_value` (default 30000.0). -/
def extract_vehicle_value (data : Raw) : Except Unit ℚ :=
  extract_with_paths data vehicle_value_paths 30000

def credit_utilization_paths : List (List String) :=
  [["credit_utilization"], ["applicant", "credit_utilization"],
   ["financial_info", "credit_utilization"], ["credit_info", "utilization"]]

/-- `FeatureService._extract_credit_utilization` (default 30.0). -/
def extract_credit_utilization (data : Raw) : Except Unit ℚ :=
  extract_with_paths data credit_utilization_paths 30

def recent_inquiries_paths : List (List String) :=
  [["recent_inquiries_6m"], ["applicant", "recent_inquiries_6m"],
   ["financial_info", "recent_inquiries_6m"], ["credit_info", "recent_inquiries_6m"]]

/-- `FeatureService._extract_recent_inquiries` (default 1.0). -/
def extract_recent_inquiries (data : Raw) : Except Unit ℚ :=
  extract_with_paths data recent_inquiries_paths 1

def address_months_paths : List (List String) :=
  [["address_months"], ["applicant", "address_months"],
   ["personal_info", "address_months"], ["address", "months"]]

/-- `FeatureService._extract_address_months` (default 24.0). -/
def extract_address_months (data : Raw) : Except Unit ℚ :=
  extract_with_paths data address_months_paths 24

def loan_term_months_paths : List (List String) :=
  [["loan_term_months"], ["loan", "term_months"], ["loan_info", "term_months"]]

/-- `FeatureService._extract_loan_term_months` (default 60.0). -/
def extract_loan_term_months (data : Raw) : Except Unit ℚ :=
  extract_with_paths data loan_term_months_paths 60

/-- `FeatureService._calculate_debt_to_income_ratio`: computed from the
resolved loan amount, loan term and annual income (note: it performs no
lookup of a direct `debt_to_income_ratio` field).  Any exception from the
three extract calls, or a non-positive income or term, yields 35.0;
otherwise `min ((loan/term) / (income/12) * 100) 100`. -/
def calculate_debt_to_income_ratio (data : Raw) : ℚ :=
  match extract_loan_amount data, extract_loan_term_months data,
        extract_annual_income data with
  | Except.ok la, Except.ok lt, Except.ok ai =>
      if ai ≤ 0 ∨ lt ≤ 0 then 35
      else min ((la / lt) / (ai / 12) * 100) 100
  | _, _, _ => 35

/-- `FeatureService._calculate_loan_to_value_ratio`: fallback 85.0,
otherwise `min (loan/value * 100) 150`. -/
def calculate_loan_to_value_ratio (data : Raw) : ℚ :=
  match extract_loan_amount data, extract_vehicle_value data with
  | Except.ok la, Except.ok vv =>
      if vv ≤ 0 then 85
      else min (la / vv * 100) 150
  | _, _ => 85

def vehicle_year_paths : List (List String) :=
  [["vehicle_year"], ["vehicle", "year"], ["vehicle_info", "year"]]

/-- `FeatureService._calculate_vehicle_age`: `current_year - int(vehicle_year)`
clamped below by 0 when a (truthy, i.e. nonzero) year resolves, else 5.0.
`datetime.now().year` is passed in as `current_year`. -/
def calculate_vehicle_age (current_year : ℤ) (data : Raw) : ℚ :=
  match first_resolved data vehicle_year_paths with
  | some v =>
      match py_int v with
      | some y => if y ≠ 0 then max 0 ((current_year - y : ℤ) : ℚ) else 5
      | none => 5
  | none => 5

def age_direct_paths : List (List String) :=
  [["age"], ["applicant", "age"], ["personal_info", "age"]]

def date_of_birth_paths : List (List String) :=
  [["date_of_birth"], ["applicant", "date_of_birth"],
   ["personal_info", "date_of_birth"]]

/-- `FeatureService._calculate_applicant_age`: a direct age field wins
(a coercion failure there is caught by the surrounding `try`, yielding
35.0).  The date-of-birth branch only fires on string values, which numeric
raw inputs never carry, so it falls through to the default 35.0. -/
def calculate_applicant_age (data : Raw) : ℚ :=
  match first_resolved data age_direct_paths with
  | some v => (py_float v).getD 35
  | none => 35

/-- `FeatureService.feature_names`: the canonical 15-feature order. -/
def feature_names : List String :=
  ["credit_score", "debt_to_income_ratio", "loan_to_value_ratio",
   "employment_months", "annual_income", "vehicle_age",
   "credit_history_years", "delinquencies_24m", "loan_amount",
   "vehicle_value", "credit_utilization", "recent_inquiries_6m",
   "address_months", "loan_term_months", "applicant_age"]

/-- `FeatureService.feature_bounds`: declared [min, max] per feature. -/
def feature_bounds (name : String) : Option (ℚ × ℚ) :=
  if name = "credit_score" then some (300, 850)
  else if name = "debt_to_income_ratio" then some (0, 100)
  else if name = "loan_to_value_ratio" then some (0, 150)
  else if name = "employment_months" then some (0, 600)
  else if name = "annual_income" then some (0, 1000000)
  else if name = "vehicle_age" then some (0, 50)
  else if name = "credit_history_years" then some (0, 50)
  else if name = "delinquencies_24m" then some (0, 20)
  else if name = "loan_amount" then some (1000, 200000)
  else if name = "vehicle_value" then some (1000, 500000)
  else if name = "credit_utilization" then some (0, 100)
  else if name = "recent_inquiries_6m" then some (0, 20)
  else if name = "address_months" then some (0, 600)
  else if name = "loan_term_months" then some (12, 120)
  else if name = "applicant_age" then some (18, 100)
  else none

/-- `FeatureService._normalize_feature`: clamp to the declared bounds when
the feature has an entry in the bounds table. -/
def normalize_feature (name : String) (value : ℚ) : ℚ :=
  match feature_bounds name with
  | some (lo, hi) => max lo (min hi value)
  | none => value

/-- `FeatureService.preprocess_features`: resolve every feature in source
order and emit the normalized 15-vector in canonical order.  An uncaught
coercion exception in any of the direct extractors propagates
(`Except.error`); the four derived features catch their own exceptions. -/
def preprocess_features (current_year : ℤ) (data : Raw) : Except Unit (List ℚ) :=
  match extract_credit_score data, extract_employment_months data,
        extract_annual_income data, extract_credit_history_years data,
        extract_delinquencies data, extract_loan_amount data,
        extract_vehicle_value data, extract_credit_utilization data,
        extract_recent_inquiries data, extract_address_months data,
        extract_loan_term_months data with
  | Except.ok cs, Except.ok em, Except.ok ai, Except.ok chy, Except.ok dq,
    Except.ok la, Except.ok vv, Except.ok cu, Except.ok ri, Except.ok am,
    Except.ok lt =>
      Except.ok
        [normalize_feature "credit_score" cs,
         normalize_feature "debt_to_income_ratio" (calculate_debt_to_income_ratio data),
         normalize_feature "loan_to_value_ratio" (calculate_loan_to_value_ratio data),
         normalize_feature "employment_months" em,
         normalize_feature "annual_income" ai,
         normalize_feature "vehicle_age" (calculate_vehicle_age current_year data),
         normalize_feature "credit_history_years" chy,
         normalize_feature "delinquencies_24m" dq,
         normalize_feature "loan_amount" la,
         normalize_feature "vehicle_value" vv,
         normalize_feature "credit_utilization" cu,
         normalize_feature "recent_inquiries_6m" ri,
         normalize_feature "address_months" am,
         normalize_feature "loan_term_months" lt,
         normalize_feature "applicant_age" (calculate_applicant_age data)]
  | _, _, _, _, _, _, _, _, _, _, _ => Except.error ()

/-- Component `i` of a normalization result, when it succeeded. -/
def vector_component (r : Except Unit (List ℚ)) (i : ℕ) : Option ℚ :=
  match r with
  | Except.ok l => l.get? i
  | Except.error _ => none

/-! ## ModelService (ml-service/app/services/model_service.py) -/

/-- `RiskTier` (ml-service/app/models/responses.py). -/
inductive RiskTier where
  | low
  | medium
  | high
deriving DecidableEq

/-- `MockModel.predict_proba` on one row: the fallback rule-based scorer.
Returns the `[1 - fraud_prob, fraud_prob]` pair the source appends per row;
short rows default to credit_score 650, debt ratio 30, LTV 80. -/
def mock_predict_proba_row (row : List ℚ) : ℚ × ℚ :=
  let credit_score := row.getD 0 650
  let debt_ratio := row.getD 1 30
  let ltv_ratio := row.getD 2 80
  let p0 : ℚ := 1/10
  let p1 := if credit_score < 600 then p0 + 3/10
            else if credit_score < 650 then p0 + 3/20
            else if credit_score < 700 then p0 + 1/20
            else p0
  let p2 := if debt_ratio > 50 then p1 + 1/4
            else if debt_ratio > 40 then p1 + 1/10
            else p1
  let p3 := if ltv_ratio > 100 then p2 + 1/5
            else if ltv_ratio > 90 then p2 + 1/10
            else p2
  let fraud_prob := min p3 (19/20)
  (1 - fraud_prob, fraud_prob)

/-- A loaded model artifact, as dispatched in `ModelService.predict`:
either the mock model, a model exposing `predict_proba` (positive-class
probability taken), or a plain `predict` model whose scalar output is the
probability. -/
inductive PyModel where
  | mock
  | probabilistic (f : List ℚ → ℚ)
  | scalar (f : List ℚ → ℚ)

/-- The fraud probability `ModelService.predict` extracts from a model:
`predict_proba(X)[0][1]` when available, else `predict(X)[0]`. -/
def model_fraud_probability : PyModel → List ℚ → ℚ
  | PyModel.mock, x => (mock_predict_proba_row x).2
  | PyModel.probabilistic f, x => f x
  | PyModel.scalar f, x => f x

/-- `ModelService.models`: the version-keyed model dictionary
(keys unique, as in a Python dict). -/
abbrev Models : Type := List (String × PyModel)

def model_keys (ms : Models) : List String := ms.map Prod.fst

def lookup_model : Models → String → Option PyModel
  | [], _ => none
  | (k, m) :: rest, v => if k = v then some m else lookup_model rest v

/-- Descending insertion used to model Python
`sorted(keys, reverse=True)`. -/
def insert_desc (x : String) : List String → List String
  | [] => [x]
  | y :: ys => if y ≤ x then x :: y :: ys else y :: insert_desc x ys

/-- `sorted(self.models.keys(), reverse=True)`: plain (code-point
lexicographic) string order, descending. -/
def sort_desc : List String → List String
  | [] => []
  | x :: xs => insert_desc x (sort_desc xs)

/-- `ModelService._get_latest_model_version`: raises when no models are
loaded, otherwise the head of the descending sort of the version keys. -/
def get_latest_model_version (ms : Models) : Except String String :=
  match sort_desc (model_keys ms) with
  | [] => Except.error "No models loaded"
  | v :: _ => Except.ok v

/-- The version-resolution prefix of `ModelService.predict`:
`None`/"latest" resolve to the latest version, any other string stands. -/
def resolve_version (ms : Models) (version : Option String) : Except String String :=
  match version with
  | none => get_latest_model_version ms
  | some s => if s = "latest" then get_latest_model_version ms else Except.ok s

/-- `ModelService._calculate_confidence`. -/
def calculate_confidence (fraud_probability : ℚ) (features : List ℚ) : ℚ :=
  let prob_confidence := 1 - 2 * |fraud_probability - 1/2|
  let quality0 : ℚ := 1
  let credit_score := features.getD 0 650
  let quality1 := if credit_score < 300 ∨ credit_score > 850
                  then quality0 * (4/5) else quality0
  let annual_income := features.getD 4 50000
  let quality2 := if annual_income < 10000 ∨ annual_income > 500000
                  then quality1 * (9/10) else quality1
  let confidence := prob_confidence * (7/10) + quality2 * (3/10)
  max (1/10) (min (99/100) confidence)

/-- `ModelService._get_risk_tier`. -/
def get_risk_tier (fraud_probability : ℚ) : RiskTier :=
  if fraud_probability < 3/10 then RiskTier.low
  else if fraud_probability < 7/10 then RiskTier.medium
  else RiskTier.high

/-- The fields of a prediction result relevant here (feature-importance
ranking and timing are out of scope of the claims). -/
structure PredictResult where
  fraud_probability : ℚ
  confidence_score : ℚ
  risk_tier : RiskTier
  model_version : String

/-- `ModelService.predict`: resolve the version, fail with a not-found
error when the resolved version is absent, validate the feature count,
then score. -/
def predict (ms : Models) (features : List ℚ) (model_version : Option String) :
    Except String PredictResult :=
  match resolve_version ms model_version with
  | Except.error e => Except.error e
  | Except.ok v =>
      match lookup_model ms v with
      | none => Except.error ("Model version " ++ v ++ " not found")
      | some m =>
          if features.length ≠ 15 then
            Except.error "Expected 15 features"
          else
            let p := model_fraud_probability m features
            Except.ok ⟨p, calculate_confidence p features, get_risk_tier p, v⟩

/-! ## TrainingService (ml-training-service/app/services/training_service.py)

The persistence layer is an opaque record store; the SQL statements in the
source are embedded with their standard semantics: an `UPDATE ... WHERE`
rewrites every row matching the filter, and asyncpg's status string
`"UPDATE n"` is reflected as whether any row matched. -/

/-- `training_jobs.status` values. -/
inductive JobStatus where
  | queued
  | running
  | completed
  | failed
  | cancelled
deriving DecidableEq

/-- The mutable columns of a `training_jobs` row that the service writes. -/
structure JobRecord where
  status : JobStatus
  status_message : Option String
  progress : Option ℤ
  metrics : Option String
  model_path : Option String
deriving DecidableEq

/-- The `training_jobs` table, keyed by `job_id`. -/
abbrev JobStore : Type := List (String × JobRecord)

def lookup_job : JobStore → String → Option JobRecord
  | [], _ => none
  | (k, r) :: rest, j => if k = j then some r else lookup_job rest j

/-- `TrainingService._update_job_status`: `UPDATE training_jobs SET status,
status_message, metrics, model_path WHERE job_id = $5` — all four columns
are overwritten (with NULL when the argument is absent), and the filter is
on `job_id` alone, with no status guard. -/
def update_job_status (store : JobStore) (job_id : String) (status : JobStatus)
    (message : Option String) (metrics : Option String)
    (model_path : Option String) : JobStore :=
  store.map fun kr =>
    if kr.1 = job_id then
      (kr.1, { kr.2 with status := status, status_message := message,
                         metrics := metrics, model_path := model_path })
    else kr

/-- `TrainingService._update_job_progress`: `UPDATE training_jobs SET
progress, status_message WHERE job_id = $3` — again no status guard. -/
def update_job_progress (store : JobStore) (job_id : String) (progress : ℤ)
    (message : Option String) : JobStore :=
  store.map fun kr =>
    if kr.1 = job_id then
      (kr.1, { kr.2 with progress := some progress, status_message := message })
    else kr

/-- `TrainingService.cancel_training_job`: `UPDATE ... SET status =
'cancelled', status_message = 'Cancelled by user' WHERE job_id = $1 AND
status IN ('queued', 'running')`; returns whether any row was updated
(`result != "UPDATE 0"`). -/
def cancel_training_job (store : JobStore) (job_id : String) : JobStore × Bool :=
  let touched := store.any fun kr =>
    kr.1 = job_id ∧ (kr.2.status = JobStatus.queued ∨ kr.2.status = JobStatus.running)
  let store' := store.map fun kr =>
    if kr.1 = job_id ∧ (kr.2.status = JobStatus.queued ∨ kr.2.status = JobStatus.running) then
      (kr.1, { kr.2 with status := JobStatus.cancelled,
                         status_message := some "Cancelled by user" })
    else kr
  (store', touched)

/-- One database write issued by the `run_training_job` task. -/
inductive JobWrite where
  | set_status (status : JobStatus) (message : Option String)
      (metrics : Option String) (model_path : Option String)
  | set_progress (progress : ℤ) (message : Option String)

def apply_write (store : JobStore) (job_id : String) : JobWrite → JobStore
  | JobWrite.set_status st msg m p => update_job_status store job_id st msg m p
  | JobWrite.set_progress p msg => update_job_progress store job_id p msg

def apply_writes (store : JobStore) (job_id : String) : List JobWrite → JobStore
  | [] => store
  | w :: ws => apply_writes (apply_write store job_id w) job_id ws

/-- The progress write emitted by `_create_progress_callback` at a boosting
iteration (every 10th iteration, mapped onto the 30–80% range with Python
`int` truncation of a nonnegative value). -/
def callback_write (total_rounds iteration : ℕ) : Option JobWrite :=
  if iteration % 10 = 0 then
    some (JobWrite.set_progress (30 + (iteration * 50) / total_rounds)
      (some "Training iteration"))
  else none

/-- The database writes of `run_training_job`'s successful path, in program
order: the `running` status write, the fixed progress milestones with the
in-training callback writes in between, and the final `completed` status
write carrying metrics and model path. -/
def run_training_job_writes (total_rounds : ℕ) (iterations : List ℕ)
    (metrics model_path : String) : List JobWrite :=
  [JobWrite.set_status JobStatus.running (some "Initializing training...") none none,
   JobWrite.set_progress 10 (some "Preparing training data..."),
   JobWrite.set_progress 20 (some "Splitting data..."),
   JobWrite.set_progress 30 (some "Training model...")]
  ++ iterations.filterMap (callback_write total_rounds)
  ++ [JobWrite.set_progress 80 (some "Evaluating model..."),
      JobWrite.set_progress 90 (some "Running cross-validation..."),
      JobWrite.set_progress 95 (some "Saving model..."),
      JobWrite.set_status JobStatus.completed (some "Training completed successfully")
        (some metrics) (some model_path)]

/-- The columns of a `model_registry` row touched by `deploy_model`. -/
structure RegistryEntry where
  is_production : Bool
  status : String
  deployment_config : Option String
deriving DecidableEq

/-- The `model_registry` table, keyed by `model_id`. -/
abbrev ModelRegistry : Type := List (String × RegistryEntry)

/-- `TrainingService.deploy_model`: first `UPDATE model_registry SET
is_production = FALSE` (unconditionally, on every row), then `UPDATE ...
SET is_production = TRUE, deployment_config = $1, status = 'deployed'
WHERE model_id = $2`; returns whether the second update matched a row. -/
def deploy_model (reg : ModelRegistry) (model_id : String)
    (deployment_config : String) : ModelRegistry × Bool :=
  let cleared := reg.map fun ke => (ke.1, { ke.2 with is_production := false })
  let updated := cleared.map fun ke =>
    if ke.1 = model_id then
      (ke.1, { ke.2 with is_production := true, status := "deployed",
                         deployment_config := some deployment_config })
    else ke
  (updated, cleared.any fun ke => ke.1 = model_id)

/-- `TrainingJobRequest` (ml-training-service/app/models/requests.py),
restricted to the configuration fields. -/
structure TrainingRequest where
  preset : Option String
  cv_folds : Option ℤ
  test_size : Option ℚ
  random_state : Option ℤ
  hyperparameters : Option (List (String × ℚ))

/-- Python `x or default` for an optional string ("" is falsy). -/
def py_or_str (v : Option String) (default : String) : String :=
  match v with
  | some s => if s = "" then default else s
  | none => default

/-- Python `x or default` for an optional integer (0 is falsy). -/
def py_or_int (v : Option ℤ) (default : ℤ) : ℤ :=
  match v with
  | some n => if n = 0 then default else n
  | none => default

/-- Python `x or default` for an optional number (0.0 is falsy). -/
def py_or_rat (v : Option ℚ) (default : ℚ) : ℚ :=
  match v with
  | some q => if q = 0 then default else q
  | none => default

/-- Python `x or {}` for an optional dict (an empty dict is falsy). -/
def py_or_dict (v : Option (List (String × ℚ))) : List (String × ℚ) :=
  match v with
  | some d => d
  | none => []

/-- The configuration record built by
`TrainingService._prepare_training_config`. -/
structure TrainingConfig where
  algorithm : String
  preset : String
  cv_folds : ℤ
  test_size : ℚ
  random_state : ℤ
  hyperparameters : List (String × ℚ)
deriving DecidableEq

def prepare_training_config (r : TrainingRequest) : TrainingConfig :=
  { algorithm := "lightgbm"
    preset := py_or_str r.preset "balanced"
    cv_folds := py_or_int r.cv_folds 5
    test_size := py_or_rat r.test_size (1/5)
    random_state := py_or_int r.random_state 42
    hyperparameters := py_or_dict r.hyperparameters }

/-- `TrainingService.training_presets`. -/
def training_presets (preset : String) : Option (List (String × ℚ)) :=
  if preset = "fast" then
    some [("num_leaves", 31), ("learning_rate", 1/10), ("feature_fraction", 9/10),
          ("bagging_fraction", 4/5), ("bagging_freq", 5), ("verbose", 0),
          ("num_boost_round", 100), ("early_stopping_rounds", 10)]
  else if preset = "balanced" then
    some [("num_leaves", 63), ("learning_rate", 1/20), ("feature_fraction", 4/5),
          ("bagging_fraction", 7/10), ("bagging_freq", 5), ("verbose", 0),
          ("num_boost_round", 300), ("early_stopping_rounds", 20)]
  else if preset = "thorough" then
    some [("num_leaves", 127), ("learning_rate", 1/50), ("feature_fraction", 7/10),
          ("bagging_fraction", 3/5), ("bagging_freq", 5), ("verbose", 0),
          ("num_boost_round", 1000), ("early_stopping_rounds", 50)]
  else none

/-- The hyperparameter-selection prefix of
`TrainingService._train_lightgbm_model`: `hyperparams =
config.get('hyperparameters', {})`, and `if not hyperparams and preset in
self.training_presets: hyperparams = self.training_presets[preset].copy()`.
The preset is consulted only when the explicit dict is empty. -/
def effective_hyperparams (c : TrainingConfig) : List (String × ℚ) :=
  match c.hyperparameters, training_presets c.preset with
  | [], some p => p
  | h, _ => h

/-- A value in the LightGBM params dict. -/
inductive ParamVal where
  | num (q : ℚ)
  | str (s : String)
  | strs (l : List String)
deriving DecidableEq

def dlookup : List (String × ParamVal) → String → Option ParamVal
  | [], _ => none
  | (k, v) :: rest, key => if k = key then some v else dlookup rest key

/-- The literal base entries of the `params` dict in
`_train_lightgbm_model`. -/
def base_train_params : List (String × ParamVal) :=
  [("objective", ParamVal.str "binary"),
   ("metric", ParamVal.strs ["binary_logloss", "auc"]),
   ("boosting_type", ParamVal.str "gbdt"),
   ("num_class", ParamVal.num 1),
   ("verbose", ParamVal.num (-1))]

/-- Python `{**base, **hyperparams}`: base entries keep their position but
are overridden by hyperparameter values; new hyperparameter keys are
appended in order. -/
def dict_merge (base upd : List (String × ParamVal)) : List (String × ParamVal) :=
  base.map (fun kv => (kv.1, (dlookup upd kv.1).getD kv.2))
    ++ upd.filter (fun kv => dlookup base kv.1 = none)

/-- The merged `params` dict before the two `pop` calls. -/
def merged_train_params (c : TrainingConfig) : List (String × ParamVal) :=
  dict_merge base_train_params ((effective_hyperparams c).map fun kv => (kv.1, ParamVal.num kv.2))

/-- `params.pop('num_boost_round', 300)`. -/
def num_boost_round (c : TrainingConfig) : ParamVal :=
  (dlookup (merged_train_params c) "num_boost_round").getD (ParamVal.num 300)

/-- `params.pop('early_stopping_rounds', 20)`. -/
def early_stopping_rounds (c : TrainingConfig) : ParamVal :=
  (dlookup (merged_train_params c) "early_stopping_rounds").getD (ParamVal.num 20)

/-- The `params` dict actually passed to `lgb.train`, after the pops. -/
def final_train_params (c : TrainingConfig) : List (String × ParamVal) :=
  (merged_train_params c).filter fun kv =>
    kv.1 ≠ "num_boost_round" ∧ kv.1 ≠ "early_stopping_rounds"

/-! ## Specification-side formulas (for refinement comparisons) -/

/-- The fallback rule-based scorer exactly as the specification words it:
base 0.10, plus the credit-score, debt-ratio and loan-to-value surcharges,
capped at 0.95. -/
def fallback_scorer_formula (credit_score debt_ratio ltv_ratio : ℚ) : ℚ :=
  min ((1/10)
    + (if credit_score < 600 then (3/10 : ℚ)
       else if credit_score < 650 then 3/20
       else if credit_score < 700 then 1/20 else 0)
    + (if debt_ratio > 50 then (1/4 : ℚ)
       else if debt_ratio > 40 then 1/10 else 0)
    + (if ltv_ratio > 100 then (1/5 : ℚ)
       else if ltv_ratio > 90 then 1/10 else 0)) (19/20)

/-- The confidence score exactly as the specification words it:
`0.7 × (1 − 2×|p − 0.5|) + 0.3 × feature_quality` with the two
data-quality discounts, clamped to `[0.1, 0.99]`. -/
def confidence_formula (p credit_score annual_income : ℚ) : ℚ :=
  let feature_quality :=
    (if credit_score < 300 ∨ credit_score > 850 then (4/5 : ℚ) else 1) *
    (if annual_income < 10000 ∨ annual_income > 500000 then (9/10 : ℚ) else 1)
  max (1/10) (min (99/100) ((7/10) * (1 - 2 * |p - 1/2|) + (3/10) * feature_quality))

/-- The concrete feature vector from the specification's fallback-scorer
example: credit_score 550, debt_to_income_ratio 55, loan_to_value_ratio
110, remaining features at unremarkable in-range values. -/
def fallback_example_features : List ℚ :=
  [550, 55, 110, 24, 50000, 5, 7, 1, 25000, 30000, 30, 1, 24, 60, 35]

/-- The concrete feature vector from the specification's confidence
example: credit_score 680 (in range), annual_income 55000 (in range). -/
def confidence_example_features : List ℚ :=
  [680, 35, 85, 24, 55000, 5, 7, 1, 25000, 30000, 30, 1, 24, 60, 35]

/-! ## Evaluation lemmas for concrete raw inputs -/

/-- Normalizing a raw input whose only field is a directly exposed
`debt_to_income_ratio` (of any value `q`): every feature takes its
default, and the debt-to-income component is computed from the default
loan amount 25000, term 60 and income 50000 as 10. -/
theorem preprocess_eval_dti_field (q : ℚ) (y : ℤ) :
    preprocess_features y (Raw.obj [("debt_to_income_ratio", Raw.num q)]) = Except.ok
      [650, 10, 250/3, 24, 50000, 5, 7, 1, 25000, 30000, 30, 1, 24, 60, 35] := by
  unfold preprocess_features
  rw [show extract_credit_score (Raw.obj [("debt_to_income_ratio", Raw.num q)]) = Except.ok 650 from rfl,
      show extract_employment_months (Raw.obj [("debt_to_income_ratio", Raw.num q)]) = Except.ok 24 from rfl,
      show extract_annual_income (Raw.obj [("debt_to_income_ratio", Raw.num q)]) = Except.ok 50000 from rfl,
      show extract_credit_history_years (Raw.obj [("debt_to_income_ratio", Raw.num q)]) = Except.ok 7 from rfl,
      show extract_delinquencies (Raw.obj [("debt_to_income_ratio", Raw.num q)]) = Except.ok 1 from rfl,
      show extract_loan_amount (Raw.obj [("debt_to_income_ratio", Raw.num q)]) = Except.ok 25000 from rfl,
      show extract_vehicle_value (Raw.obj [("debt_to_income_ratio", Raw.num q)]) = Except.ok 30000 from rfl,
      show extract_credit_utilization (Raw.obj [("debt_to_income_ratio", Raw.num q)]) = Except.ok 30 from rfl,
      show extract_recent_inquiries (Raw.obj [("debt_to_income_ratio", Raw.num q)]) = Except.ok 1 from rfl,
      show extract_address_months (Raw.obj [("debt_to_income_ratio", Raw.num q)]) = Except.ok 24 from rfl,
      show extract_loan_term_months (Raw.obj [("debt_to_income_ratio", Raw.num q)]) = Except.ok 60 from rfl]
  have hdti : calculate_debt_to_income_ratio (Raw.obj [("debt_to_income_ratio", Raw.num q)]) = 10 := by
    unfold calculate_debt_to_income_ratio
    rw [show extract_loan_amount (Raw.obj [("debt_to_income_ratio", Raw.num q)]) = Except.ok 25000 from rfl,
        show extract_loan_term_months (Raw.obj [("debt_to_income_ratio", Raw.num q)]) = Except.ok 60 from rfl,
        show extract_annual_income (Raw.obj [("debt_to_income_ratio", Raw.num q)]) = Except.ok 50000 from rfl]
    norm_num
  have hltv : calculate_loan_to_value_ratio (Raw.obj [("debt_to_income_ratio", Raw.num q)]) = 250/3 := by
    unfold calculate_loan_to_value_ratio
    rw [show extract_loan_amount (Raw.obj [("debt_to_income_ratio", Raw.num q)]) = Except.ok 25000 from rfl,
        show extract_vehicle_value (Raw.obj [("debt_to_income_ratio", Raw.num q)]) = Except.ok 30000 from rfl]
    norm_num
  rw [hdti, hltv,
      show calculate_vehicle_age y (Raw.obj [("debt_to_income_ratio", Raw.num q)]) = 5 from rfl,
      show calculate_applicant_age (Raw.obj [("debt_to_income_ratio", Raw.num q)]) = 35 from rfl]
  norm_num [normalize_feature,
    show feature_bounds "credit_score" = some (300, 850) from rfl,
    show feature_bounds "debt_to_income_ratio" = some (0, 100) from rfl,
    show feature_bounds "loan_to_value_ratio" = some (0, 150) from rfl,
    show feature_bounds "employment_months" = some (0, 600) from rfl,
    show feature_bounds "annual_income" = some (0, 1000000) from rfl,
    show feature_bounds "vehicle_age" = some (0, 50) from rfl,
    show feature_bounds "credit_history_years" = some (0, 50) from rfl,
    show feature_bounds "delinquencies_24m" = some (0, 20) from rfl,
    show feature_bounds "loan_amount" = some (1000, 200000) from rfl,
    show feature_bounds "vehicle_value" = some (1000, 500000) from rfl,
    show feature_bounds "credit_utilization" = some (0, 100) from rfl,
    show feature_bounds "recent_inquiries_6m" = some (0, 20) from rfl,
    show feature_bounds "address_months" = some (0, 600) from rfl,
    show feature_bounds "loan_term_months" = some (12, 120) from rfl,
    show feature_bounds "applicant_age" = some (18, 100) from rfl,
    min_def, max_def]

/-- Normalizing the empty raw input: identical defaults, and again a
debt-to-income component of 10, not 35. -/
theorem preprocess_eval_empty (y : ℤ) :
    preprocess_features y (Raw.obj []) = Except.ok
      [650, 10, 250/3, 24, 50000, 5, 7, 1, 25000, 30000, 30, 1, 24, 60, 35] := by
  unfold preprocess_features
  rw [show extract_credit_score (Raw.obj []) = Except.ok 650 from rfl,
      show extract_employment_months (Raw.obj []) = Except.ok 24 from rfl,
      show extract_annual_income (Raw.obj []) = Except.ok 50000 from rfl,
      show extract_credit_history_years (Raw.obj []) = Except.ok 7 from rfl,
      show extract_delinquencies (Raw.obj []) = Except.ok 1 from rfl,
      show extract_loan_amount (Raw.obj []) = Except.ok 25000 from rfl,
      show extract_vehicle_value (Raw.obj []) = Except.ok 30000 from rfl,
      show extract_credit_utilization (Raw.obj []) = Except.ok 30 from rfl,
      show extract_recent_inquiries (Raw.obj []) = Except.ok 1 from rfl,
      show extract_address_months (Raw.obj []) = Except.ok 24 from rfl,
      show extract_loan_term_months (Raw.obj []) = Except.ok 60 from rfl]
  have hdti : calculate_debt_to_income_ratio (Raw.obj []) = 10 := by
    unfold calculate_debt_to_income_ratio
    rw [show extract_loan_amount (Raw.obj []) = Except.ok 25000 from rfl,
        show extract_loan_term_months (Raw.obj []) = Except.ok 60 from rfl,
        show extract_annual_income (Raw.obj []) = Except.ok 50000 from rfl]
    norm_num
  have hltv : calculate_loan_to_value_ratio (Raw.obj []) = 250/3 := by
    unfold calculate_loan_to_value_ratio
    rw [show extract_loan_amount (Raw.obj []) = Except.ok 25000 from rfl,
        show extract_vehicle_value (Raw.obj []) = Except.ok 30000 from rfl]
    norm_num
  rw [hdti, hltv,
      show calculate_vehicle_age y (Raw.obj []) = 5 from rfl,
      show calculate_applicant_age (Raw.obj []) = 35 from rfl]
  norm_num [normalize_feature,
    show feature_bounds "credit_score" = some (300, 850) from rfl,
    show feature_bounds "debt_to_income_ratio" = some (0, 100) from rfl,
    show feature_bounds "loan_to_value_ratio" = some (0, 150) from rfl,
    show feature_bounds "employment_months" = some (0, 600) from rfl,
    show feature_bounds "annual_income" = some (0, 1000000) from rfl,
    show feature_bounds "vehicle_age" = some (0, 50) from rfl,
    show feature_bounds "credit_history_years" = some (0, 50) from rfl,
    show feature_bounds "delinquencies_24m" = some (0, 20) from rfl,
    show feature_bounds "loan_amount" = some (1000, 200000) from rfl,
    show feature_bounds "vehicle_value" = some (1000, 500000) from rfl,
    show feature_bounds "credit_utilization" = some (0, 100) from rfl,
    show feature_bounds "recent_inquiries_6m" = some (0, 20) from rfl,
    show feature_bounds "address_months" = some (0, 600) from rfl,
    show feature_bounds "loan_term_months" = some (12, 120) from rfl,
    show feature_bounds "applicant_age" = some (18, 100) from rfl,
    min_def, max_def]

/-- Every lookup path any extractor (or derived-feature helper) consults. -/
def all_lookup_paths : List (List String) :=
  credit_score_paths ++ employment_months_paths ++ annual_income_paths ++
  credit_history_years_paths ++ delinquencies_paths ++ loan_amount_paths ++
  vehicle_value_paths ++ credit_utilization_paths ++ recent_inquiries_paths ++
  address_months_paths ++ loan_term_months_paths ++ vehicle_year_paths ++
  age_direct_paths ++ date_of_birth_paths

/-- "Each resolvable field numeric": every consulted path either fails to
resolve or resolves to a numeric leaf. -/
def numeric_resolvable (data : Raw) : Bool :=
  all_lookup_paths.all fun p =>
    match get_nested_value data p with
    | some (Raw.num _) => true
    | some (Raw.obj _) => false
    | none => true

/-- The declared bounds in canonical feature order. -/
def canonical_bounds : List (ℚ × ℚ) :=
  feature_names.map fun n => (feature_bounds n).getD (0, 0)

theorem first_resolved_mem {data : Raw} :
    ∀ {paths : List (List String)} {v : Raw},
      first_resolved data paths = some v →
      ∃ p ∈ paths, get_nested_value data p = some v := by
  intro paths
  induction paths with
  | nil => intro v h; simp [first_resolved] at h
  | cons p rest ih =>
      intro v h
      simp only [first_resolved] at h
      cases hg : get_nested_value data p with
      | some w =>
          rw [hg] at h
          exact ⟨p, by simp, by rw [hg]; exact h⟩
      | none =>
          rw [hg] at h
          obtain ⟨p', hp', hg'⟩ := ih h
          exact ⟨p', by simp [hp'], hg'⟩

theorem extract_ok_of_numeric (data : Raw) (paths : List (List String)) (d : ℚ)
    (hsub : ∀ p ∈ paths, p ∈ all_lookup_paths)
    (h : numeric_resolvable data = true) :
    ∃ q : ℚ, extract_with_paths data paths d = Except.ok q := by
  unfold extract_with_paths
  cases hfr : first_resolved data paths with
  | none => exact ⟨d, rfl⟩
  | some v =>
      obtain ⟨p, hp, hg⟩ := first_resolved_mem hfr
      have hall := List.all_eq_true.mp h p (hsub p hp)
      rw [hg] at hall
      cases v with
      | num q => exact ⟨q, rfl⟩
      | obj fs => simp at hall

theorem normalize_feature_mem (name : String) (lo hi x : ℚ)
    (hb : feature_bounds name = some (lo, hi)) (hle : lo ≤ hi) :
    lo ≤ normalize_feature name x ∧ normalize_feature name x ≤ hi := by
  unfold normalize_feature
  rw [hb]
  exact ⟨le_max_left _ _, max_le hle (min_le_left _ _)⟩

/-! ## Theorems -/

/-- **C7** — For every fraud probability `p`, the risk tier is `low` iff
`p < 0.30`, `medium` iff `0.30 ≤ p < 0.70`, `high` iff `p ≥ 0.70`; in
particular 0.2999 ↦ low, 0.30 ↦ medium, 0.6999 ↦ medium, 0.70 ↦ high. -/
theorem risk_tier_thresholds :
    (∀ p : ℚ,
      (get_risk_tier p = RiskTier.low ↔ p < 3/10) ∧
      (get_risk_tier p = RiskTier.medium ↔ 3/10 ≤ p ∧ p < 7/10) ∧
      (get_risk_tier p = RiskTier.high ↔ 7/10 ≤ p)) ∧
    get_risk_tier (2999/10000) = RiskTier.low ∧
    get_risk_tier (3/10) = RiskTier.medium ∧
    get_risk_tier (6999/10000) = RiskTier.medium ∧
    get_risk_tier (7/10) = RiskTier.high := by
  refine ⟨fun p => ?_, by norm_num [get_risk_tier], by norm_num [get_risk_tier],
    by norm_num [get_risk_tier], by norm_num [get_risk_tier]⟩
  unfold get_risk_tier
  split_ifs with h1 h2
  · refine ⟨by simp [h1], by simp; intro h; linarith, by simp; linarith⟩
  · refine ⟨by simp [h1], by simp [not_lt.mp h1, h2], by simpa using h2⟩
  · refine ⟨by simp [h1], by simp [h2], by simp [not_lt.mp h2]⟩

/-- **C6** — The confidence score is exactly
`clamp(0.7·(1 − 2·|p − 0.5|) + 0.3·feature_quality, 0.1, 0.99)` with
feature quality discounted ×0.8 for an out-of-range credit score
(index 0) and ×0.9 for an out-of-range annual income (index 4); with
p = 0.85 and in-range features the confidence is 0.51. -/
theorem confidence_matches_formula :
    (∀ (p : ℚ) (features : List ℚ),
      calculate_confidence p features =
        confidence_formula p (features.getD 0 650) (features.getD 4 50000)) ∧
    calculate_confidence (17/20) confidence_example_features = 51/100 := by
  constructor
  · intro p features
    simp only [calculate_confidence, confidence_formula]
    split_ifs <;> ring_nf
  · norm_num [calculate_confidence, confidence_example_features, abs_of_pos,
      min_def, max_def]

/-- **C3** — The fallback rule-based scorer computes exactly the
specification's formula (base 0.10 plus tiered surcharges, capped at
0.95); on the example vector (550, 55, 110, …) it yields probability
0.85 and risk tier `high`. -/
theorem fallback_scorer_matches_formula :
    (∀ row : List ℚ,
      (mock_predict_proba_row row).2 =
        fallback_scorer_formula (row.getD 0 650) (row.getD 1 30) (row.getD 2 80)) ∧
    model_fraud_probability PyModel.mock fallback_example_features = 17/20 ∧
    get_risk_tier (model_fraud_probability PyModel.mock fallback_example_features)
      = RiskTier.high := by
  refine ⟨fun row => ?_, ?_, ?_⟩
  · simp only [mock_predict_proba_row, fallback_scorer_formula]
    split_ifs <;> ring_nf
  · norm_num [model_fraud_probability, mock_predict_proba_row, fallback_example_features]
  · norm_num [model_fraud_probability, mock_predict_proba_row, fallback_example_features,
      get_risk_tier]

/-- **C2 counterexample** — On an input exposing `debt_to_income_ratio: 42`
directly, `normalize` produces 10 for that component (the ratio computed
from default loan amount 25000, term 60 and income 50000), not the
path-lookup value 42; and on an input with no income/loan/term data at
all the component is again 10, not 35. -/
theorem dti_direct_field_cex :
    vector_component
      (preprocess_features 2026 (Raw.obj [("debt_to_income_ratio", Raw.num 42)])) 1
      = some 10 ∧
    get_nested_value (Raw.obj [("debt_to_income_ratio", Raw.num 42)])
      ["debt_to_income_ratio"] = some (Raw.num 42) ∧
    (10 : ℚ) ≠ 42 ∧
    vector_component (preprocess_features 2026 (Raw.obj [])) 1 = some 10 ∧
    (10 : ℚ) ≠ 35 := by
  refine ⟨?_, rfl, by norm_num, ?_, by norm_num⟩
  · rw [preprocess_eval_dti_field]; rfl
  · rw [preprocess_eval_empty]; rfl

/-- **C2 (amended)** — `normalize` never reads a directly exposed
`debt_to_income_ratio` field: whatever value `q` it holds, the component
is the 10.0 computed from the default loan amount, term and income; absent
all income/loan/term data the component is likewise 10.0; the 35.0
fallback arises only from a non-positive resolved income or term (or a
coercion failure), e.g. an explicit `annual_income` of 0. -/
theorem dti_ignores_direct_field :
    (∀ (q : ℚ) (y : ℤ),
      vector_component
        (preprocess_features y (Raw.obj [("debt_to_income_ratio", Raw.num q)])) 1
        = some 10) ∧
    (∀ y : ℤ, vector_component (preprocess_features y (Raw.obj [])) 1 = some 10) ∧
    calculate_debt_to_income_ratio (Raw.obj [("annual_income", Raw.num 0)]) = 35 := by
  refine ⟨fun q y => ?_, fun y => ?_, ?_⟩
  · rw [preprocess_eval_dti_field]; rfl
  · rw [preprocess_eval_empty]; rfl
  · unfold calculate_debt_to_income_ratio
    rw [show extract_loan_amount (Raw.obj [("annual_income", Raw.num 0)]) = Except.ok 25000 from rfl,
        show extract_loan_term_months (Raw.obj [("annual_income", Raw.num 0)]) = Except.ok 60 from rfl,
        show extract_annual_income (Raw.obj [("annual_income", Raw.num 0)]) = Except.ok 0 from rfl]
    norm_num

/-- **C5** — For every raw input whose resolvable fields are all numeric,
`normalize` succeeds (missing fields never make it fail) and returns a
vector of exactly 15 values, each within its feature's declared
[min, max] bound in canonical order. -/
theorem preprocess_total_in_bounds (y : ℤ) (data : Raw)
    (h : numeric_resolvable data = true) :
    ∃ v, preprocess_features y data = Except.ok v ∧ v.length = 15 ∧
      List.Forall₂ (fun (bd : ℚ × ℚ) x => bd.1 ≤ x ∧ x ≤ bd.2) canonical_bounds v := by
  obtain ⟨q01, h01⟩ := extract_ok_of_numeric data credit_score_paths 650 (by decide) h
  obtain ⟨q04, h04⟩ := extract_ok_of_numeric data employment_months_paths 24 (by decide) h
  obtain ⟨q05, h05⟩ := extract_ok_of_numeric data annual_income_paths 50000 (by decide) h
  obtain ⟨q07, h07⟩ := extract_ok_of_numeric data credit_history_years_paths 7 (by decide) h
  obtain ⟨q08, h08⟩ := extract_ok_of_numeric data delinquencies_paths 1 (by decide) h
  obtain ⟨q09, h09⟩ := extract_ok_of_numeric data loan_amount_paths 25000 (by decide) h
  obtain ⟨q10, h10⟩ := extract_ok_of_numeric data vehicle_value_paths 30000 (by decide) h
  obtain ⟨q11, h11⟩ := extract_ok_of_numeric data credit_utilization_paths 30 (by decide) h
  obtain ⟨q12, h12⟩ := extract_ok_of_numeric data recent_inquiries_paths 1 (by decide) h
  obtain ⟨q13, h13⟩ := extract_ok_of_numeric data address_months_paths 24 (by decide) h
  obtain ⟨q14, h14⟩ := extract_ok_of_numeric data loan_term_months_paths 60 (by decide) h
  unfold preprocess_features
  rw [show extract_credit_score data = extract_with_paths data credit_score_paths 650 from rfl, h01,
      show extract_employment_months data = extract_with_paths data employment_months_paths 24 from rfl, h04,
      show extract_annual_income data = extract_with_paths data annual_income_paths 50000 from rfl, h05,
      show extract_credit_history_years data = extract_with_paths data credit_history_years_paths 7 from rfl, h07,
      show extract_delinquencies data = extract_with_paths data delinquencies_paths 1 from rfl, h08,
      show extract_loan_amount data = extract_with_paths data loan_amount_paths 25000 from rfl, h09,
      show extract_vehicle_value data = extract_with_paths data vehicle_value_paths 30000 from rfl, h10,
      show extract_credit_utilization data = extract_with_paths data credit_utilization_paths 30 from rfl, h11,
      show extract_recent_inquiries data = extract_with_paths data recent_inquiries_paths 1 from rfl, h12,
      show extract_address_months data = extract_with_paths data address_months_paths 24 from rfl, h13,
      show extract_loan_term_months data = extract_with_paths data loan_term_months_paths 60 from rfl, h14]
  refine ⟨_, rfl, by simp, ?_⟩
  rw [show canonical_bounds =
      [(300, 850), (0, 100), (0, 150), (0, 600), (0, 1000000), (0, 50), (0, 50),
       (0, 20), (1000, 200000), (1000, 500000), (0, 100), (0, 20), (0, 600),
       (12, 120), (18, 100)] from rfl]
  refine List.Forall₂.cons ?_ (List.Forall₂.cons ?_ (List.Forall₂.cons ?_
    (List.Forall₂.cons ?_ (List.Forall₂.cons ?_ (List.Forall₂.cons ?_
    (List.Forall₂.cons ?_ (List.Forall₂.cons ?_ (List.Forall₂.cons ?_
    (List.Forall₂.cons ?_ (List.Forall₂.cons ?_ (List.Forall₂.cons ?_
    (List.Forall₂.cons ?_ (List.Forall₂.cons ?_ (List.Forall₂.cons ?_
    List.Forall₂.nil)))))))))))))) <;>
    exact normalize_feature_mem _ _ _ _ rfl (by norm_num)

/-- Witness for C5 at the empty raw input. -/
theorem preprocess_total_in_bounds_witness :
    numeric_resolvable (Raw.obj []) = true ∧
    ∃ v, preprocess_features 2026 (Raw.obj []) = Except.ok v ∧ v.length = 15 ∧
      List.Forall₂ (fun (bd : ℚ × ℚ) x => bd.1 ≤ x ∧ x ≤ bd.2) canonical_bounds v :=
  ⟨rfl, preprocess_total_in_bounds 2026 (Raw.obj []) rfl⟩

/-! ### Version resolution (C8) -/

theorem mem_insert_desc {x : String} :
    ∀ {l : List String} {a : String}, a ∈ insert_desc x l ↔ a = x ∨ a ∈ l := by
  intro l
  induction l with
  | nil => intro a; simp [insert_desc]
  | cons y ys ih =>
      intro a
      unfold insert_desc
      split_ifs with h
      · simp [List.mem_cons]
      · simp only [List.mem_cons, ih]
        tauto

theorem sorted_insert_desc {x : String} :
    ∀ {l : List String}, List.Sorted (fun a b => b ≤ a) l →
      List.Sorted (fun a b => b ≤ a) (insert_desc x l) := by
  intro l
  induction l with
  | nil => intro _; simp [insert_desc]
  | cons y ys ih =>
      intro hs
      rw [List.sorted_cons] at hs
      obtain ⟨hy, hys⟩ := hs
      unfold insert_desc
      split_ifs with h
      · rw [List.sorted_cons]
        refine ⟨fun b hb => ?_, by rw [List.sorted_cons]; exact ⟨hy, hys⟩⟩
        rcases List.mem_cons.mp hb with rfl | hb'
        · exact h
        · exact (hy b hb').trans h
      · rw [List.sorted_cons]
        refine ⟨fun b hb => ?_, ih hys⟩
        rcases mem_insert_desc.mp hb with rfl | hb'
        · exact le_of_not_le h
        · exact hy b hb'

theorem mem_sort_desc :
    ∀ {l : List String} {a : String}, a ∈ sort_desc l ↔ a ∈ l := by
  intro l
  induction l with
  | nil => intro a; simp [sort_desc]
  | cons y ys ih =>
      intro a
      unfold sort_desc
      rw [mem_insert_desc, ih, List.mem_cons]

theorem sorted_sort_desc :
    ∀ l : List String, List.Sorted (fun a b => b ≤ a) (sort_desc l) := by
  intro l
  induction l with
  | nil => simp [sort_desc]
  | cons y ys ih => exact sorted_insert_desc ih

/-- `_get_latest_model_version` on a non-empty registry returns a loaded
version key that is the maximum of all keys in plain string order. -/
theorem latest_is_max (ms : Models) (hne : ms ≠ []) :
    ∃ m, get_latest_model_version ms = Except.ok m ∧ m ∈ model_keys ms ∧
      ∀ k ∈ model_keys ms, k ≤ m := by
  unfold get_latest_model_version
  cases hs : sort_desc (model_keys ms) with
  | nil =>
      exfalso
      cases ms with
      | nil => exact hne rfl
      | cons kv rest =>
          have : kv.1 ∈ sort_desc (model_keys (kv :: rest)) :=
            mem_sort_desc.mpr (by simp [model_keys])
          rw [hs] at this
          simp at this
  | cons m t =>
      refine ⟨m, rfl, ?_, ?_⟩
      · exact mem_sort_desc.mp (by rw [hs]; simp)
      · intro k hk
        have hk' : k ∈ sort_desc (model_keys ms) := mem_sort_desc.mpr hk
        rw [hs] at hk'
        rcases List.mem_cons.mp hk' with rfl | hk''
        · exact le_refl _
        · have hsort := sorted_sort_desc (model_keys ms)
          rw [hs, List.sorted_cons] at hsort
          exact hsort.1 k hk''

theorem lookup_model_isSome :
    ∀ {ms : Models} {v : String}, v ∈ model_keys ms → (lookup_model ms v).isSome := by
  intro ms
  induction ms with
  | nil => intro v h; simp [model_keys] at h
  | cons kv rest ih =>
      intro v h
      unfold lookup_model
      split_ifs with he
      · rfl
      · refine ih ?_
        rcases List.mem_cons.mp h with h1 | h1
        · exact absurd h1.symm he
        · exact h1

theorem lookup_model_eq_none :
    ∀ {ms : Models} {v : String}, v ∉ model_keys ms → lookup_model ms v = none := by
  intro ms
  induction ms with
  | nil => intro v _; rfl
  | cons kv rest ih =>
      intro v h
      unfold lookup_model
      rw [model_keys, List.map_cons, List.mem_cons] at h
      push_neg at h
      rw [if_neg (fun he => h.1 he.symm)]
      exact ih h.2

/-- **C8** — On a non-empty registry, version `None`/"latest" resolves to
the lexicographically greatest loaded version key (plain string order),
under which an artifact is stored; scoring with an explicit version string
absent from the registry fails with a not-found error and produces no
prediction. -/
theorem latest_resolution_and_notfound (ms : Models) (hne : ms ≠ []) :
    (∃ m, get_latest_model_version ms = Except.ok m ∧ m ∈ model_keys ms ∧
       (∀ k ∈ model_keys ms, k ≤ m) ∧ (lookup_model ms m).isSome ∧
       resolve_version ms none = Except.ok m ∧
       resolve_version ms (some "latest") = Except.ok m) ∧
    (∀ (s : String) (features : List ℚ), s ≠ "latest" → s ∉ model_keys ms →
       predict ms features (some s) =
         Except.error ("Model version " ++ s ++ " not found")) := by
  constructor
  · obtain ⟨m, hm, hmem, hmax⟩ := latest_is_max ms hne
    exact ⟨m, hm, hmem, hmax, lookup_model_isSome hmem,
      by rw [resolve_version]; exact hm,
      by rw [resolve_version, if_pos rfl]; exact hm⟩
  · intro s features hs hmem
    have hres : resolve_version ms (some s) = Except.ok s := by
      simp only [resolve_version]
      rw [if_neg hs]
    unfold predict
    rw [hres]
    simp [lookup_model_eq_none hmem]

/-- A two-artifact registry exhibiting the plain-string "latest" order:
"v1.10.0" sorts before "v1.2.0". -/
def witness_models : Models :=
  [("v1.10.0", PyModel.mock), ("v1.2.0", PyModel.scalar fun _ => 1/2)]

/-- Witness for C8: on the concrete registry, "latest" resolves to
"v1.2.0" (not "v1.10.0"), and an absent explicit version errors. -/
theorem latest_resolution_witness :
    get_latest_model_version witness_models = Except.ok "v1.2.0" ∧
    resolve_version witness_models none = Except.ok "v1.2.0" ∧
    ("v1.10.0" : String) ≤ "v1.2.0" ∧
    predict witness_models [300, 35, 85, 24, 50000, 5, 7, 1, 25000, 30000, 30, 1, 24, 60, 35]
      (some "v9.9") = Except.error "Model version v9.9 not found" := by
  obtain ⟨⟨m, hm, hmem, hmax, _, hres, _⟩, herr⟩ :=
    latest_resolution_and_notfound witness_models (by simp [witness_models])
  have hm2 : m = "v1.2.0" := by
    have h1 := hmax "v1.2.0" (by simp [witness_models, model_keys])
    have h2 : m = "v1.10.0" ∨ m = "v1.2.0" := by
      simpa [witness_models, model_keys] using hmem
    rcases h2 with rfl | rfl
    · exact absurd h1 (by rw [String.le_iff_toList_le]; decide)
    · rfl
  subst hm2
  refine ⟨hm, hres, by rw [String.le_iff_toList_le]; decide, ?_⟩
  exact herr "v9.9" _ (by decide) (by simp [witness_models, model_keys])

/-! ### Training-job state machine (C1) -/

/-- **C1** — The cancel guard works as claimed (cancel on a `completed` job
returns false and leaves the record unchanged; cancel on a `running` job
returns true and sets `cancelled`), but the claimed invariant "no later
write from the run task is applied after a terminal state" fails: the run
task's progress and final status writes filter on `job_id` alone, so after
a cancellation they still apply and replace the terminal `cancelled`
status with `completed`. -/
theorem cancelled_job_overwritten_by_run_task :
    cancel_training_job
        [("j", ⟨JobStatus.completed, some "done", some 100, some "m", some "p"⟩)] "j"
      = ([("j", ⟨JobStatus.completed, some "done", some 100, some "m", some "p"⟩)], false) ∧
    (cancel_training_job
        [("j", ⟨JobStatus.running, some "Training model...", some 30, none, none⟩)] "j").2
      = true ∧
    lookup_job (cancel_training_job
        [("j", ⟨JobStatus.running, some "Training model...", some 30, none, none⟩)] "j").1 "j"
      = some ⟨JobStatus.cancelled, some "Cancelled by user", some 30, none, none⟩ ∧
    lookup_job
      (apply_writes
        (cancel_training_job
          [("j", ⟨JobStatus.running, some "Training model...", some 30, none, none⟩)] "j").1
        "j"
        (List.drop 4 (run_training_job_writes 100 [] "metrics" "model.joblib"))) "j"
      = some ⟨JobStatus.completed, some "Training completed successfully", some 95,
              some "metrics", some "model.joblib"⟩ ∧
    JobStatus.completed ≠ JobStatus.cancelled := by
  refine ⟨by decide, rfl, rfl, by decide, by decide⟩

/-! ### Deploy (C4, C10) -/

theorem deploy_entries_eq (reg : ModelRegistry) (model_id cfg : String) :
    (deploy_model reg model_id cfg).1 = reg.map fun ke =>
      if ke.1 = model_id then (ke.1, ⟨true, "deployed", some cfg⟩)
      else (ke.1, { ke.2 with is_production := false }) := by
  simp only [deploy_model]
  rw [List.map_map]
  exact List.map_congr_left fun ke _ => rfl

theorem deploy_success_iff (reg : ModelRegistry) (model_id cfg : String) :
    (deploy_model reg model_id cfg).2 = true ↔ model_id ∈ reg.map Prod.fst := by
  unfold deploy_model
  simp [List.any_eq_true, List.mem_map]

/-- **C4** — After a successful deploy, `is_production` holds exactly on
the entry keyed by the deployed `model_id` and is cleared everywhere else;
in particular exactly one registry entry is production-deployed. -/
theorem deploy_exactly_one_production (reg : ModelRegistry) (model_id cfg : String)
    (hnd : (reg.map Prod.fst).Nodup)
    (hs : (deploy_model reg model_id cfg).2 = true) :
    (∀ ke ∈ (deploy_model reg model_id cfg).1,
        ke.2.is_production = true ↔ ke.1 = model_id) ∧
    ((deploy_model reg model_id cfg).1.countP fun ke => ke.2.is_production) = 1 := by
  have hmem : model_id ∈ reg.map Prod.fst := (deploy_success_iff reg model_id cfg).mp hs
  constructor
  · intro ke hke
    rw [deploy_entries_eq] at hke
    obtain ⟨ke', _, rfl⟩ := List.mem_map.mp hke
    split_ifs with h
    · simp [h]
    · simp [h]
  · rw [deploy_entries_eq, List.countP_map]
    rw [List.countP_congr (q := fun ke => ke.1 == model_id) ?_]
    · have h1 : (reg.map Prod.fst).count model_id = 1 :=
        List.count_eq_one_of_mem hnd hmem
      rw [List.count_eq_countP, List.countP_map] at h1
      exact h1
    · intro ke _
      simp only [Function.comp]
      split_ifs with h
      · simp [h]
      · simp [h]

/-- A registry with a previously deployed entry "a" and a fresh entry "b". -/
def witness_registry : ModelRegistry :=
  [("a", ⟨true, "deployed", some "old"⟩), ("b", ⟨false, "ready", none⟩)]

/-- Witness for C4: deploying "b" in the concrete registry leaves exactly
one production entry. -/
theorem deploy_exactly_one_production_witness :
    ((deploy_model witness_registry "b" "cfg").1.countP fun ke => ke.2.is_production) = 1 :=
  (deploy_exactly_one_production witness_registry "b" "cfg" (by decide) (by decide)).2

/-- **C10** — Deploy with an unknown `model_id` returns false but has
already cleared `is_production` on every entry: the registry is mutated on
the error path, leaving no production-deployed entry at all. -/
theorem deploy_missing_id_clears_all (reg : ModelRegistry) (model_id cfg : String)
    (h : ∀ ke ∈ reg, ke.1 ≠ model_id) :
    (deploy_model reg model_id cfg).2 = false ∧
    ∀ ke ∈ (deploy_model reg model_id cfg).1, ke.2.is_production = false := by
  constructor
  · rw [Bool.eq_false_iff]
    intro hs
    obtain ⟨ke, hke, he⟩ := List.mem_map.mp ((deploy_success_iff reg model_id cfg).mp hs)
    exact h ke hke he
  · intro ke hke
    rw [deploy_entries_eq] at hke
    obtain ⟨ke', hke', rfl⟩ := List.mem_map.mp hke
    rw [if_neg (h ke' hke')]

/-- Witness for C10: deploying the absent id "zzz" fails yet clears the
production flag that entry "a" held. -/
theorem deploy_missing_id_clears_all_witness :
    (deploy_model witness_registry "zzz" "cfg").2 = false ∧
    ∀ ke ∈ (deploy_model witness_registry "zzz" "cfg").1, ke.2.is_production = false :=
  deploy_missing_id_clears_all witness_registry "zzz" "cfg" (by decide)

/-! ### Hyperparameter presets (C9) -/

/-- Lookup in a preset's hyperparameter dict. -/
def qlookup : List (String × ℚ) → String → Option ℚ
  | [], _ => none
  | (k, v) :: rest, key => if k = key then some v else qlookup rest key

/-- The request of the C9 counterexample: preset "fast" together with one
explicit hyperparameter. -/
def cex_request : TrainingRequest :=
  ⟨some "fast", none, none, none, some [("num_leaves", 200)]⟩

def cex_config : TrainingConfig := prepare_training_config cex_request

/-- **C9 counterexample** — With preset "fast" and the single explicit
hyperparameter `num_leaves = 200`, the remaining preset values do *not*
stay in effect: the preset is ignored entirely.  The fast preset carries
`learning_rate = 0.1` and `num_boost_round = 100`, but the effective
training parameters contain no learning rate at all and use the built-in
default `num_boost_round = 300`. -/
theorem preset_override_cex :
    cex_config.preset = "fast" ∧
    effective_hyperparams cex_config = [("num_leaves", 200)] ∧
    qlookup ((training_presets "fast").getD []) "learning_rate" = some (1/10) ∧
    dlookup (final_train_params cex_config) "learning_rate" = none ∧
    qlookup ((training_presets "fast").getD []) "num_boost_round" = some 100 ∧
    num_boost_round cex_config = ParamVal.num 300 ∧
    (300 : ℚ) ≠ 100 := by
  refine ⟨rfl, rfl, rfl, rfl, rfl, rfl, by norm_num⟩

/-- **C9 (amended)** — The preset's hyperparameters are used, in full, only
when no explicit hyperparameters are supplied; when any explicit
hyperparameters are supplied they are used alone and every preset value is
ignored. -/
theorem preset_used_only_without_overrides (c : TrainingConfig) :
    (c.hyperparameters = [] → ∀ p, training_presets c.preset = some p →
        effective_hyperparams c = p) ∧
    (c.hyperparameters ≠ [] → effective_hyperparams c = c.hyperparameters) := by
  constructor
  · intro h p hp
    unfold effective_hyperparams
    rw [h, hp]
  · intro h
    unfold effective_hyperparams
    cases hc : c.hyperparameters with
    | nil => exact absurd hc h
    | cons a t => cases training_presets c.preset <;> rfl

/-- Witness for C9's amended claim at two concrete configurations. -/
theorem preset_used_only_without_overrides_witness :
    effective_hyperparams (prepare_training_config ⟨some "fast", none, none, none, none⟩) =
      [("num_leaves", 31), ("learning_rate", 1/10), ("feature_fraction", 9/10),
       ("bagging_fraction", 4/5), ("bagging_freq", 5), ("verbose", 0),
       ("num_boost_round", 100), ("early_stopping_rounds", 10)] ∧
    effective_hyperparams cex_config = [("num_leaves", 200)] :=
  ⟨(preset_used_only_without_overrides _).1 rfl _ rfl,
   (preset_used_only_without_overrides _).2 (by
     rw [show cex_config.hyperparameters = [("num_leaves", 200)] from rfl]
     simp)⟩

end FraudDetector
